import Mathlib

/-!
Verification of the core detection engine of the Jedawel LensSafe baby
monitor (`src/baby_monitor.py`).  The geometry, motion tracking, per-frame
rubbing decision and alert state machine are embedded shallowly: the
mutable `hand_position_history` of the Python class becomes an explicit
list threaded through `calculate_hand_motion` and `detect_eye_rubbing`,
the alert fields (`last_alert_time`, `consecutive_detections`) become an
explicit `AlertState`, and `time.time()` becomes an explicit `now`
argument.  Real numbers stand in for Python floats.
-/

namespace LensSafe

/-- A MediaPipe landmark: normalized image coordinates `x, y` and a relative
depth `z` (more negative is closer to the camera). -/
structure Landmark where
  x : ℝ
  y : ℝ
  z : ℝ

/-- A landmark set, addressable by the topology index
(Python: `face_landmarks.landmark[idx]`). -/
abbrev LandmarkSet := ℕ → Landmark

/-- `mp.solutions.hands.HandLandmark.INDEX_FINGER_TIP` is index 8. -/
def INDEX_FINGER_TIP : ℕ := 8

/-- The configuration fields read by the detection engine and the alert
state machine. -/
structure Config where
  eye_rub_threshold : ℝ
  depth_threshold : ℝ
  motion_threshold : ℝ
  consecutive_frames_threshold : ℕ
  motion_history_frames : ℕ
  alert_cooldown_seconds : ℝ

/-- `get_default_config` (baby_monitor.py lines 87-110), restricted to the
fields the engine reads: `eye_rub_threshold = 0.15`,
`depth_threshold = 0.05`, `motion_threshold = 0.01`,
`consecutive_frames_threshold = 3`, `motion_history_frames = 5`,
`alert_cooldown_seconds = 5`. -/
def get_default_config : Config :=
  ⟨0.15, 0.05, 0.01, 3, 5, 5⟩

/-- `calculate_distance` (lines 112-114): planar Euclidean distance. -/
noncomputable def calculate_distance (p1 p2 : ℝ × ℝ) : ℝ :=
  Real.sqrt ((p1.1 - p2.1) ^ 2 + (p1.2 - p2.2) ^ 2)

/-- Arithmetic mean of a list of reals (`np.mean`). -/
noncomputable def npMean (xs : List ℝ) : ℝ := xs.sum / xs.length

/-- The `motions` list of lines 136-142: distances between consecutive
entries of the history. -/
noncomputable def motions : List (ℝ × ℝ) → List ℝ
  | p :: q :: rest => calculate_distance p q :: motions (q :: rest)
  | _ => []

/-- `calculate_hand_motion` (lines 116-145).  The Python method mutates
`self.hand_position_history`; here the history is passed in and the updated
history is returned together with the velocity: append the current
position, evict the oldest entry while the history exceeds
`max_history_frames`, return `0.0` when fewer than two samples remain, and
otherwise the mean of the consecutive-pair distances. -/
noncomputable def calculate_hand_motion (maxFrames : ℕ) (history : List (ℝ × ℝ))
    (pos : ℝ × ℝ) : List (ℝ × ℝ) × ℝ :=
  let h1 := history ++ [pos]
  let h2 := if maxFrames < h1.length then h1.tail else h1
  if h2.length < 2 then (h2, 0) else (h2, npMean (motions h2))

/-- Left-eye landmark indices (line 150). -/
def left_eye_indices : List ℕ := [33, 133, 160, 159, 158, 157, 173]

/-- Right-eye landmark indices (line 152). -/
def right_eye_indices : List ℕ := [362, 263, 387, 386, 385, 384, 398]

/-- Per-eye center from `get_eye_regions` (lines 147-177): mean of the
pixel-space positions of the landmark subset. -/
noncomputable def eye_center (face : LandmarkSet) (idxs : List ℕ) (w h : ℝ) : ℝ × ℝ :=
  (npMean (idxs.map fun i => (face i).x * w), npMean (idxs.map fun i => (face i).y * h))

/-- Per-eye mean depth from `get_eye_regions` (lines 147-177). -/
noncomputable def eye_depth (face : LandmarkSet) (idxs : List ℕ) : ℝ :=
  npMean (idxs.map fun i => (face i).z)

/-- `get_eye_regions` (lines 147-177): left center, right center, left mean
depth, right mean depth. -/
noncomputable def get_eye_regions (face : LandmarkSet) (w h : ℝ) :
    (ℝ × ℝ) × (ℝ × ℝ) × ℝ × ℝ :=
  (eye_center face left_eye_indices w h, eye_center face right_eye_indices w h,
   eye_depth face left_eye_indices, eye_depth face right_eye_indices)

/-- The fingertip probe position in pixel space (lines 192-193). -/
noncomputable def fingertip_pos (hand : LandmarkSet) (w h : ℝ) : ℝ × ℝ :=
  ((hand INDEX_FINGER_TIP).x * w, (hand INDEX_FINGER_TIP).y * h)

/-- The per-eye proximity-and-depth test of lines 210-218: the fingertip is
close to the eye when the distance normalized by the image width is
strictly below `eye_rub_threshold` and the absolute depth difference is at
most `depth_threshold`. -/
noncomputable def eye_close (index_pos : ℝ × ℝ) (index_depth : ℝ)
    (center : ℝ × ℝ) (depth w thr depth_thr : ℝ) : Prop :=
  calculate_distance index_pos center / w < thr ∧ |index_depth - depth| ≤ depth_thr

/-- `is_near_eye` (line 220): the OR of the left-eye and right-eye tests. -/
noncomputable def is_near_eye (cfg : Config) (face hand : LandmarkSet) (w h : ℝ) : Prop :=
  eye_close (fingertip_pos hand w h) (hand INDEX_FINGER_TIP).z
      (eye_center face left_eye_indices w h) (eye_depth face left_eye_indices)
      w cfg.eye_rub_threshold cfg.depth_threshold ∨
    eye_close (fingertip_pos hand w h) (hand INDEX_FINGER_TIP).z
      (eye_center face right_eye_indices w h) (eye_depth face right_eye_indices)
      w cfg.eye_rub_threshold cfg.depth_threshold

open Classical in
/-- `detect_eye_rubbing` (lines 179-239).  The history is threaded
explicitly: when face or hand is absent the history is cleared and the
result is false; otherwise the current fingertip position is appended by
the velocity computation, the rubbing result is proximity AND sufficient
normalized motion, and the history is cleared again when the fingertip is
not near either eye. -/
noncomputable def detect_eye_rubbing (cfg : Config) (history : List (ℝ × ℝ))
    (face hand : Option LandmarkSet) (w h : ℝ) : List (ℝ × ℝ) × Prop :=
  match face, hand with
  | some f, some hd =>
      (if is_near_eye cfg f hd w h then
          (calculate_hand_motion cfg.motion_history_frames history (fingertip_pos hd w h)).1
        else [],
        is_near_eye cfg f hd w h ∧
          (calculate_hand_motion cfg.motion_history_frames history (fingertip_pos hd w h)).2 / w ≥
            cfg.motion_threshold)
  | _, _ => ([], False)

/-- The alert-related mutable fields of `BabyMonitor` (lines 51-52):
`last_alert_time` starts at `0`, `consecutive_detections` at `0`. -/
structure AlertState where
  last_alert_time : ℝ
  consecutive_detections : ℕ

/-- Initial alert state (lines 51-52): `last_alert_time = 0` and
`consecutive_detections = 0`. -/
def initial_alert_state : AlertState := ⟨0, 0⟩

open Classical in
/-- `trigger_alert` (lines 241-263) with `time.time()` made explicit: when
the cooldown has not elapsed the state is unchanged and no alert event is
emitted; otherwise `last_alert_time` is set to `now` and one alert event is
emitted (the returned Boolean). -/
noncomputable def trigger_alert (cooldown : ℝ) (now : ℝ) (s : AlertState) :
    AlertState × Bool :=
  if now - s.last_alert_time < cooldown then (s, false)
  else (⟨now, s.consecutive_detections⟩, true)

open Classical in
/-- Lines 371-377 of `process_frame`: on a rubbing frame the consecutive
counter is incremented and, once it reaches `consecutive_frames_threshold`,
an alert attempt is made; on a non-rubbing frame the counter is reset. -/
noncomputable def process_detection (cfg : Config) (now : ℝ) (s : AlertState)
    (is_rubbing : Bool) : AlertState × Bool :=
  if is_rubbing then
    let s1 : AlertState := ⟨s.last_alert_time, s.consecutive_detections + 1⟩
    if cfg.consecutive_frames_threshold ≤ s1.consecutive_detections then
      trigger_alert cfg.alert_cooldown_seconds now s1
    else (s1, false)
  else (⟨s.last_alert_time, 0⟩, false)

/-- Iterated observation from an empty history: each call stores the
updated history `calculate_hand_motion` produces. -/
noncomputable def run_observes (maxF : ℕ) (ps : List (ℝ × ℝ)) : List (ℝ × ℝ) :=
  ps.foldl (fun hist p => (calculate_hand_motion maxF hist p).1) []

/-- The mock face of the repository tests: every left-eye landmark at
`(0.3, 0.3)`, every right-eye landmark at `(0.7, 0.3)`, all at the given
depth. -/
noncomputable def mock_face (eyeZ : ℝ) : LandmarkSet := fun i =>
  if i ∈ right_eye_indices then ⟨0.7, 0.3, eyeZ⟩ else ⟨0.3, 0.3, eyeZ⟩

/-- The mock hand of the repository tests: the index fingertip at the given
normalized position and depth. -/
noncomputable def mock_hand (x y z : ℝ) : LandmarkSet := fun _ => ⟨x, y, z⟩

/-! ### Evaluation helpers -/

lemma fingertip_mock (x y z w h : ℝ) :
    fingertip_pos (mock_hand x y z) w h = (x * w, y * h) := rfl

lemma mock_face_left_center (zd w h : ℝ) :
    eye_center (mock_face zd) left_eye_indices w h = (0.3 * w, 0.3 * h) := by
  simp only [eye_center, mock_face, left_eye_indices, right_eye_indices, npMean]
  norm_num
  constructor <;> ring

lemma mock_face_right_center (zd w h : ℝ) :
    eye_center (mock_face zd) right_eye_indices w h = (0.7 * w, 0.3 * h) := by
  simp only [eye_center, mock_face, left_eye_indices, right_eye_indices, npMean]
  norm_num
  constructor <;> ring

lemma mock_face_left_depth (zd : ℝ) :
    eye_depth (mock_face zd) left_eye_indices = zd := by
  simp only [eye_depth, mock_face, left_eye_indices, right_eye_indices, npMean]
  norm_num
  ring

lemma mock_face_right_depth (zd : ℝ) :
    eye_depth (mock_face zd) right_eye_indices = zd := by
  simp only [eye_depth, mock_face, left_eye_indices, right_eye_indices, npMean]
  norm_num
  ring

lemma chm_empty (p : ℝ × ℝ) :
    calculate_hand_motion 5 [] p = ([p], 0) := by
  simp [calculate_hand_motion]

lemma chm_one (q p : ℝ × ℝ) :
    calculate_hand_motion 5 [q] p = ([q, p], npMean (motions [q, p])) := by
  simp [calculate_hand_motion]

lemma chm_two (q r p : ℝ × ℝ) :
    calculate_hand_motion 5 [q, r] p = ([q, r, p], npMean (motions [q, r, p])) := by
  simp [calculate_hand_motion]

lemma motions_pair (q p : ℝ × ℝ) : motions [q, p] = [calculate_distance q p] := rfl

lemma motions_triple (q r p : ℝ × ℝ) :
    motions [q, r, p] = [calculate_distance q r, calculate_distance r p] := rfl

lemma npMean_single (a : ℝ) : npMean [a] = a := by simp [npMean]

lemma npMean_pair (a b : ℝ) : npMean [a, b] = (a + b) / 2 := by
  simp [npMean]

lemma calculate_distance_eval (x1 y1 x2 y2 : ℝ) :
    calculate_distance (x1, y1) (x2, y2) = Real.sqrt ((x1 - x2) ^ 2 + (y1 - y2) ^ 2) := rfl

open Classical in
lemma detect_some (cfg : Config) (hist : List (ℝ × ℝ)) (f hd : LandmarkSet) (w h : ℝ) :
    detect_eye_rubbing cfg hist (some f) (some hd) w h =
      (if is_near_eye cfg f hd w h then
          (calculate_hand_motion cfg.motion_history_frames hist (fingertip_pos hd w h)).1
        else [],
        is_near_eye cfg f hd w h ∧
          (calculate_hand_motion cfg.motion_history_frames hist (fingertip_pos hd w h)).2 / w ≥
            cfg.motion_threshold) := rfl

lemma default_mhf : get_default_config.motion_history_frames = 5 := rfl

lemma default_mthr : get_default_config.motion_threshold = 0.01 := rfl

/-! ### The end-to-end sequence of the spec (left-eye landmarks at
`(0.3, 0.3)` depth `0`, right-eye landmarks at `(0.7, 0.3)` depth `0`,
frame `640 x 480`, default thresholds, fingertip path
`(0.30, 0.30, -0.02)`, `(0.34, 0.32, -0.01)`, `(0.28, 0.28, 0)`). -/

/-- First call of the end-to-end sequence, from an empty history. -/
noncomputable def run1 : List (ℝ × ℝ) × Prop :=
  detect_eye_rubbing get_default_config []
    (some (mock_face 0)) (some (mock_hand 0.30 0.30 (-0.02))) 640 480

/-- Second call of the end-to-end sequence. -/
noncomputable def run2 : List (ℝ × ℝ) × Prop :=
  detect_eye_rubbing get_default_config run1.1
    (some (mock_face 0)) (some (mock_hand 0.34 0.32 (-0.01))) 640 480

/-- Third call of the end-to-end sequence. -/
noncomputable def run3 : List (ℝ × ℝ) × Prop :=
  detect_eye_rubbing get_default_config run2.1
    (some (mock_face 0)) (some (mock_hand 0.28 0.28 0)) 640 480

lemma near_call1 :
    is_near_eye get_default_config (mock_face 0) (mock_hand 0.30 0.30 (-0.02)) 640 480 := by
  simp only [is_near_eye, eye_close, fingertip_mock, mock_hand, mock_face_left_center,
    mock_face_left_depth, calculate_distance_eval, get_default_config]
  left
  constructor
  · norm_num [Real.sqrt_zero]
  · rw [abs_le]
    constructor <;> norm_num

lemma near_call2 :
    is_near_eye get_default_config (mock_face 0) (mock_hand 0.34 0.32 (-0.01)) 640 480 := by
  simp only [is_near_eye, eye_close, fingertip_mock, mock_hand, mock_face_left_center,
    mock_face_left_depth, calculate_distance_eval, get_default_config]
  left
  constructor
  · rw [div_lt_iff₀ (by norm_num : (0:ℝ) < 640),
      Real.sqrt_lt' (by norm_num : (0:ℝ) < 0.15 * 640)]
    norm_num
  · rw [abs_le]
    constructor <;> norm_num

lemma near_call3 :
    is_near_eye get_default_config (mock_face 0) (mock_hand 0.28 0.28 0) 640 480 := by
  simp only [is_near_eye, eye_close, fingertip_mock, mock_hand, mock_face_left_center,
    mock_face_left_depth, calculate_distance_eval, get_default_config]
  left
  constructor
  · rw [div_lt_iff₀ (by norm_num : (0:ℝ) < 640),
      Real.sqrt_lt' (by norm_num : (0:ℝ) < 0.15 * 640)]
    norm_num
  · rw [abs_le]
    constructor <;> norm_num

lemma run1_hist : run1.1 = [((192 : ℝ), (144 : ℝ))] := by
  rw [run1, detect_some, default_mhf]
  simp only [if_pos near_call1, fingertip_mock, chm_empty]
  norm_num

lemma run1_not : ¬ run1.2 := by
  rw [run1, detect_some, default_mhf, default_mthr]
  rintro ⟨-, hm⟩
  simp only [fingertip_mock, chm_empty] at hm
  norm_num at hm

lemma run2_hist : run2.1 = [((192 : ℝ), (144 : ℝ)), ((217.6 : ℝ), (153.6 : ℝ))] := by
  rw [run2, detect_some, default_mhf, run1_hist]
  simp only [if_pos near_call2, fingertip_mock, chm_one]
  norm_num

lemma run2_res : run2.2 := by
  rw [run2, detect_some, default_mhf, default_mthr, run1_hist]
  refine ⟨near_call2, ?_⟩
  simp only [fingertip_mock, chm_one, motions_pair, npMean_single, calculate_distance_eval]
  rw [ge_iff_le, le_div_iff₀ (by norm_num : (0:ℝ) < 640)]
  exact Real.le_sqrt_of_sq_le (by norm_num)

lemma run3_res : run3.2 := by
  rw [run3, detect_some, default_mhf, default_mthr, run2_hist]
  refine ⟨near_call3, ?_⟩
  simp only [fingertip_mock, chm_two, motions_triple, npMean_pair, calculate_distance_eval]
  rw [ge_iff_le, le_div_iff₀ (by norm_num : (0:ℝ) < 640)]
  have h1 : (6.4 : ℝ) ≤ Real.sqrt ((192 - 217.6) ^ 2 + (144 - 153.6) ^ 2) :=
    Real.le_sqrt_of_sq_le (by norm_num)
  have h2 : (6.4 : ℝ) ≤ Real.sqrt ((217.6 - 0.28 * 640) ^ 2 + (153.6 - 0.28 * 480) ^ 2) :=
    Real.le_sqrt_of_sq_le (by norm_num)
  linarith

lemma chm_eq (maxF : ℕ) (hist : List (ℝ × ℝ)) (pos : ℝ × ℝ) :
    calculate_hand_motion maxF hist pos =
      if (if maxF < (hist ++ [pos]).length then (hist ++ [pos]).tail else hist ++ [pos]).length < 2
      then (if maxF < (hist ++ [pos]).length then (hist ++ [pos]).tail else hist ++ [pos], 0)
      else (if maxF < (hist ++ [pos]).length then (hist ++ [pos]).tail else hist ++ [pos],
            npMean (motions
              (if maxF < (hist ++ [pos]).length then (hist ++ [pos]).tail else hist ++ [pos]))) :=
  rfl

lemma chm_fst (maxF : ℕ) (hist : List (ℝ × ℝ)) (pos : ℝ × ℝ) :
    (calculate_hand_motion maxF hist pos).1 =
      if maxF < (hist ++ [pos]).length then (hist ++ [pos]).tail else hist ++ [pos] := by
  rw [chm_eq]
  split <;> split <;> rfl

lemma chm_snd_short (maxF : ℕ) (hist : List (ℝ × ℝ)) (pos : ℝ × ℝ)
    (h : (calculate_hand_motion maxF hist pos).1.length < 2) :
    (calculate_hand_motion maxF hist pos).2 = 0 := by
  rw [chm_fst] at h
  rw [chm_eq, if_pos h]

lemma chm_snd_long (maxF : ℕ) (hist : List (ℝ × ℝ)) (pos : ℝ × ℝ)
    (h : 2 ≤ (calculate_hand_motion maxF hist pos).1.length) :
    (calculate_hand_motion maxF hist pos).2 =
      npMean (motions (calculate_hand_motion maxF hist pos).1) := by
  rw [chm_fst] at h
  have hc : ¬ ((if maxF < (hist ++ [pos]).length then (hist ++ [pos]).tail
      else hist ++ [pos]).length < 2) := by omega
  rw [chm_fst, chm_eq, if_neg hc]

lemma chm_length (maxF : ℕ) (hist : List (ℝ × ℝ)) (pos : ℝ × ℝ)
    (hle : hist.length ≤ maxF) :
    (calculate_hand_motion maxF hist pos).1.length = min (hist.length + 1) maxF := by
  rw [chm_fst]
  rcases lt_or_ge maxF (hist ++ [pos]).length with hcase | hcase
  · rw [if_pos hcase]
    simp only [List.length_tail, List.length_append, List.length_cons, List.length_nil] at *
    omega
  · rw [if_neg (not_lt.mpr hcase)]
    simp only [List.length_append, List.length_cons, List.length_nil] at *
    omega

lemma run_observes_length_aux (maxF : ℕ) (ps : List (ℝ × ℝ)) :
    ∀ hist : List (ℝ × ℝ), hist.length ≤ maxF →
      (ps.foldl (fun acc p => (calculate_hand_motion maxF acc p).1) hist).length =
        min (hist.length + ps.length) maxF := by
  induction ps with
  | nil =>
    intro hist hle
    simp only [List.foldl_nil, List.length_nil]
    omega
  | cons p ps ih =>
    intro hist hle
    rw [List.foldl_cons]
    rw [ih _ (by rw [chm_length _ _ _ hle]; omega)]
    rw [chm_length _ _ _ hle]
    simp only [List.length_cons]
    omega

lemma trigger_alert_skip (cd now : ℝ) (s : AlertState)
    (h : now - s.last_alert_time < cd) :
    trigger_alert cd now s = (s, false) := by
  unfold trigger_alert
  rw [if_pos h]

lemma trigger_alert_fire (cd now : ℝ) (s : AlertState)
    (h : ¬ (now - s.last_alert_time < cd)) :
    trigger_alert cd now s = (⟨now, s.consecutive_detections⟩, true) := by
  unfold trigger_alert
  rw [if_neg h]

lemma trigger_alert_keeps_counter (cd now : ℝ) (s : AlertState) :
    (trigger_alert cd now s).1.consecutive_detections = s.consecutive_detections := by
  unfold trigger_alert
  split <;> rfl

lemma far_mock :
    ¬ is_near_eye get_default_config (mock_face 0) (mock_hand 0.9 0.9 0) 640 480 := by
  simp only [is_near_eye, eye_close, fingertip_mock, mock_hand, mock_face_left_center,
    mock_face_right_center, mock_face_left_depth, mock_face_right_depth,
    calculate_distance_eval, get_default_config]
  rintro (⟨h2d, -⟩ | ⟨h2d, -⟩)
  · rw [div_lt_iff₀ (by norm_num : (0:ℝ) < 640)] at h2d
    have hb : (0.15 * 640 : ℝ) ≤
        Real.sqrt ((0.9 * 640 - 0.3 * 640) ^ 2 + (0.9 * 480 - 0.3 * 480) ^ 2) :=
      Real.le_sqrt_of_sq_le (by norm_num)
    linarith
  · rw [div_lt_iff₀ (by norm_num : (0:ℝ) < 640)] at h2d
    have hb : (0.15 * 640 : ℝ) ≤
        Real.sqrt ((0.9 * 640 - 0.7 * 640) ^ 2 + (0.9 * 480 - 0.3 * 480) ^ 2) :=
      Real.le_sqrt_of_sq_le (by norm_num)
    linarith

lemma near_center0 :
    is_near_eye get_default_config (mock_face 0) (mock_hand 0.30 0.30 0) 640 480 := by
  simp only [is_near_eye, eye_close, fingertip_mock, mock_hand, mock_face_left_center,
    mock_face_left_depth, calculate_distance_eval, get_default_config]
  left
  constructor
  · norm_num [Real.sqrt_zero]
  · rw [abs_le]
    constructor <;> norm_num

lemma sqrt_twentyfive : Real.sqrt 25 = 5 := by
  rw [show (25 : ℝ) = 5 ^ 2 by norm_num, Real.sqrt_sq (by norm_num : (0:ℝ) ≤ 5)]

lemma slow_center0 :
    (calculate_hand_motion get_default_config.motion_history_frames []
      (fingertip_pos (mock_hand 0.30 0.30 0) 640 480)).2 / 640 <
      get_default_config.motion_threshold := by
  rw [default_mhf, default_mthr, fingertip_mock, chm_empty]
  norm_num

/-! ### The claims -/

/-- C1, counterexample: the claimed detect-result sequence false, false,
true is wrong for the code — on the second call the bounded history
already holds two samples, the mean pairwise distance is `sqrt 747.52`
pixels (normalized about `0.0427`, at least `motion_threshold = 0.01`) and
the fingertip is near the left eye, so the second call returns true. -/
theorem detect_sequence_claim_false : ¬ (¬ run1.2 ∧ ¬ run2.2 ∧ run3.2) :=
  fun hc => hc.2.1 run2_res

/-- C1, amended: with all left-eye landmarks at `(0.30, 0.30)` depth `0`,
frame `640 x 480` and default thresholds, the three successive `detect`
calls with the fingertip at `(0.30, 0.30, -0.02)`, `(0.34, 0.32, -0.01)`,
`(0.28, 0.28, 0)` starting from an empty motion history return
false, true, true. -/
theorem detect_sequence_eval : ¬ run1.2 ∧ run2.2 ∧ run3.2 :=
  ⟨run1_not, run2_res, run3_res⟩

/-- C2: the per-eye near classification holds exactly when the normalized
2D distance is strictly below `eye_rub_threshold` and the absolute depth
difference is at most `depth_threshold`; the overall near-eye signal is
the OR of the two per-eye tests; and with eye depth `0` and threshold
`0.05` a 2D-close fingertip at depth `0.06` is not near while one at
depth `0.049` is near. -/
theorem near_eye_classification :
    (∀ (pos : ℝ × ℝ) (z : ℝ) (c : ℝ × ℝ) (d w thr dthr : ℝ),
        eye_close pos z c d w thr dthr ↔
          calculate_distance pos c / w < thr ∧ |z - d| ≤ dthr) ∧
    (∀ (cfg : Config) (face hand : LandmarkSet) (w h : ℝ),
        is_near_eye cfg face hand w h ↔
          (eye_close (fingertip_pos hand w h) (hand INDEX_FINGER_TIP).z
              (eye_center face left_eye_indices w h) (eye_depth face left_eye_indices)
              w cfg.eye_rub_threshold cfg.depth_threshold ∨
            eye_close (fingertip_pos hand w h) (hand INDEX_FINGER_TIP).z
              (eye_center face right_eye_indices w h) (eye_depth face right_eye_indices)
              w cfg.eye_rub_threshold cfg.depth_threshold)) ∧
    ¬ eye_close ((192 : ℝ), (144 : ℝ)) 0.06 (192, 144) 0 640 0.15 0.05 ∧
    eye_close ((192 : ℝ), (144 : ℝ)) 0.049 (192, 144) 0 640 0.15 0.05 := by
  refine ⟨fun pos z c d w thr dthr => Iff.rfl, fun cfg face hand w h => Iff.rfl, ?_, ?_⟩
  · rintro ⟨-, hz⟩
    rw [abs_le] at hz
    exact absurd hz.2 (by norm_num)
  · constructor
    · rw [calculate_distance_eval]
      norm_num [Real.sqrt_zero]
    · rw [abs_le]
      constructor <;> norm_num

/-- C3: `calculate_hand_motion` returns exactly `0` when the bounded
history after appending has fewer than two samples, and otherwise the
arithmetic mean of the consecutive-pair Euclidean distances over the
current history; in particular for history `[(0,0),(3,4)]` and new
position `(0,0)` it returns `5`, not the distance `0` between the first
and last entries. -/
theorem observe_velocity_spec :
    (∀ (maxF : ℕ) (hist : List (ℝ × ℝ)) (pos : ℝ × ℝ),
        ((calculate_hand_motion maxF hist pos).1.length < 2 →
          (calculate_hand_motion maxF hist pos).2 = 0) ∧
        (2 ≤ (calculate_hand_motion maxF hist pos).1.length →
          (calculate_hand_motion maxF hist pos).2 =
            npMean (motions (calculate_hand_motion maxF hist pos).1))) ∧
    (calculate_hand_motion 5 [((0 : ℝ), (0 : ℝ)), (3, 4)] (0, 0)).2 = 5 ∧
    calculate_distance ((0 : ℝ), (0 : ℝ)) (0, 0) = 0 := by
  refine ⟨fun maxF hist pos => ⟨chm_snd_short maxF hist pos, chm_snd_long maxF hist pos⟩, ?_, ?_⟩
  · rw [chm_two]
    simp only [motions_triple, npMean_pair, calculate_distance_eval]
    norm_num [sqrt_twentyfive]
  · rw [calculate_distance_eval]
    norm_num [Real.sqrt_zero]

/-- C3 witness: concrete instances of both branches — one observation from
an empty history has a one-element bounded history and velocity `0`; a
second observation has a two-element history and the mean of the pairwise
distances. -/
theorem observe_velocity_spec_witness :
    (calculate_hand_motion 5 [] ((0 : ℝ), (0 : ℝ))).1.length < 2 ∧
    (calculate_hand_motion 5 [] ((0 : ℝ), (0 : ℝ))).2 = 0 ∧
    2 ≤ (calculate_hand_motion 5 [((0 : ℝ), (0 : ℝ))] (3, 4)).1.length ∧
    (calculate_hand_motion 5 [((0 : ℝ), (0 : ℝ))] (3, 4)).2 =
      npMean (motions (calculate_hand_motion 5 [((0 : ℝ), (0 : ℝ))] (3, 4)).1) := by
  have h1 : (calculate_hand_motion 5 [] ((0 : ℝ), (0 : ℝ))).1.length < 2 := by
    rw [chm_empty]
    norm_num
  have h2 : 2 ≤ (calculate_hand_motion 5 [((0 : ℝ), (0 : ℝ))] (3, 4)).1.length := by
    rw [chm_one]
    norm_num
  exact ⟨h1, ((observe_velocity_spec.1 5 [] ((0 : ℝ), (0 : ℝ))).1 h1), h2,
    ((observe_velocity_spec.1 5 [((0 : ℝ), (0 : ℝ))] (3, 4)).2 h2)⟩

/-- C4: starting from an empty history, after observing the positions of
`ps` the history length is `min ps.length maxF`; the length never exceeds
`maxF`; and on overflow the evicted entry is the oldest one (the head of
the history). -/
theorem history_length_invariant :
    (∀ (maxF : ℕ) (ps : List (ℝ × ℝ)),
        (run_observes maxF ps).length = min ps.length maxF) ∧
    (∀ (maxF : ℕ) (ps : List (ℝ × ℝ)), (run_observes maxF ps).length ≤ maxF) ∧
    (∀ (maxF : ℕ) (a pos : ℝ × ℝ) (hist : List (ℝ × ℝ)), maxF ≤ hist.length + 1 →
        (calculate_hand_motion maxF (a :: hist) pos).1 = hist ++ [pos]) := by
  have hlen : ∀ (maxF : ℕ) (ps : List (ℝ × ℝ)),
      (run_observes maxF ps).length = min ps.length maxF := by
    intro maxF ps
    have haux := run_observes_length_aux maxF ps [] (by simp)
    simpa [run_observes] using haux
  refine ⟨hlen, fun maxF ps => ?_, fun maxF a pos hist hover => ?_⟩
  · rw [hlen]
    exact Nat.min_le_right _ _
  · have hcond : maxF < ((a :: hist) ++ [pos]).length := by
      simp only [List.cons_append, List.length_append, List.length_cons, List.length_nil]
      omega
    rw [chm_fst, if_pos hcond]
    simp only [List.cons_append, List.tail_cons]

/-- C4 witness: at capacity 2, observing a third position evicts the
oldest entry. -/
theorem history_length_invariant_witness :
    2 ≤ [((1 : ℝ), (1 : ℝ))].length + 1 ∧
    (calculate_hand_motion 2 [((0 : ℝ), (0 : ℝ)), (1, 1)] (2, 2)).1 =
      [((1 : ℝ), (1 : ℝ))] ++ [(2, 2)] :=
  ⟨by simp,
    history_length_invariant.2.2 2 ((0 : ℝ), (0 : ℝ)) (2, 2) [((1 : ℝ), (1 : ℝ))] (by simp)⟩

/-- C5: when the face landmark set or the hand landmark set is absent,
`detect_eye_rubbing` returns false and the motion history becomes empty,
regardless of the prior history. -/
theorem detect_missing_input (cfg : Config) (hist : List (ℝ × ℝ))
    (face hand : Option LandmarkSet) (w h : ℝ)
    (habs : face = none ∨ hand = none) :
    (detect_eye_rubbing cfg hist face hand w h).1 = [] ∧
    ¬ (detect_eye_rubbing cfg hist face hand w h).2 := by
  rcases habs with rfl | rfl
  · cases hand <;> exact ⟨rfl, fun hc => hc⟩
  · cases face <;> exact ⟨rfl, fun hc => hc⟩

/-- C5 witness: a frame without a face, with a nonempty prior history. -/
theorem detect_missing_input_witness :
    ((none : Option LandmarkSet) = none ∨
        (some (mock_hand 0.5 0.5 0) : Option LandmarkSet) = none) ∧
    ((detect_eye_rubbing get_default_config [((1 : ℝ), (2 : ℝ))] none
        (some (mock_hand 0.5 0.5 0)) 640 480).1 = [] ∧
      ¬ (detect_eye_rubbing get_default_config [((1 : ℝ), (2 : ℝ))] none
        (some (mock_hand 0.5 0.5 0)) 640 480).2) :=
  ⟨Or.inl rfl,
    detect_missing_input get_default_config [((1 : ℝ), (2 : ℝ))] none
      (some (mock_hand 0.5 0.5 0)) 640 480 (Or.inl rfl)⟩

/-- C6: with face and hand present but the fingertip not near either eye,
`detect_eye_rubbing` leaves an empty motion history (the transition frame
resets it even though the current position was appended during the
velocity computation) and returns false. -/
theorem detect_far_resets_history (cfg : Config) (hist : List (ℝ × ℝ))
    (f hd : LandmarkSet) (w h : ℝ) (hfar : ¬ is_near_eye cfg f hd w h) :
    (detect_eye_rubbing cfg hist (some f) (some hd) w h).1 = [] ∧
    ¬ (detect_eye_rubbing cfg hist (some f) (some hd) w h).2 := by
  rw [detect_some]
  constructor
  · exact if_neg hfar
  · rintro ⟨hnear, -⟩
    exact hfar hnear

/-- C6 witness: the mock face with a fingertip at `(0.9, 0.9, 0)`, far
from both eyes, with a nonempty prior history. -/
theorem detect_far_resets_history_witness :
    ¬ is_near_eye get_default_config (mock_face 0) (mock_hand 0.9 0.9 0) 640 480 ∧
    ((detect_eye_rubbing get_default_config [((5 : ℝ), (5 : ℝ))] (some (mock_face 0))
        (some (mock_hand 0.9 0.9 0)) 640 480).1 = [] ∧
      ¬ (detect_eye_rubbing get_default_config [((5 : ℝ), (5 : ℝ))] (some (mock_face 0))
        (some (mock_hand 0.9 0.9 0)) 640 480).2) :=
  ⟨far_mock, detect_far_resets_history _ _ _ _ _ _ far_mock⟩

/-- C9: with face and hand present, fingertip near an eye but normalized
velocity below `motion_threshold`, `detect_eye_rubbing` returns false yet
the motion history is the bounded append of the fingertip position — it is
not cleared, and below capacity it is exactly the prior history plus the
new position. -/
theorem detect_slow_keeps_history (cfg : Config) (hist : List (ℝ × ℝ))
    (f hd : LandmarkSet) (w h : ℝ) (hnear : is_near_eye cfg f hd w h)
    (hslow : (calculate_hand_motion cfg.motion_history_frames hist
        (fingertip_pos hd w h)).2 / w < cfg.motion_threshold) :
    ¬ (detect_eye_rubbing cfg hist (some f) (some hd) w h).2 ∧
    (detect_eye_rubbing cfg hist (some f) (some hd) w h).1 =
      (calculate_hand_motion cfg.motion_history_frames hist (fingertip_pos hd w h)).1 ∧
    (hist.length < cfg.motion_history_frames →
      (detect_eye_rubbing cfg hist (some f) (some hd) w h).1 =
        hist ++ [fingertip_pos hd w h]) := by
  rw [detect_some]
  refine ⟨?_, ?_, ?_⟩
  · rintro ⟨-, hm⟩
    rw [ge_iff_le] at hm
    exact absurd hslow (not_lt.mpr hm)
  · exact if_pos hnear
  · intro hcap
    have hcond : ¬ (cfg.motion_history_frames < (hist ++ [fingertip_pos hd w h]).length) := by
      simp only [List.length_append, List.length_cons, List.length_nil]
      omega
    rw [if_pos hnear, chm_fst, if_neg hcond]

/-- C9 witness: first frame with the fingertip resting on the left eye
center — near, zero velocity, result false, history `[(192, 144)]`. -/
theorem detect_slow_keeps_history_witness :
    is_near_eye get_default_config (mock_face 0) (mock_hand 0.30 0.30 0) 640 480 ∧
    ¬ (detect_eye_rubbing get_default_config [] (some (mock_face 0))
        (some (mock_hand 0.30 0.30 0)) 640 480).2 ∧
    (detect_eye_rubbing get_default_config [] (some (mock_face 0))
        (some (mock_hand 0.30 0.30 0)) 640 480).1 =
      [] ++ [fingertip_pos (mock_hand 0.30 0.30 0) 640 480] :=
  ⟨near_center0,
    (detect_slow_keeps_history _ _ _ _ _ _ near_center0 slow_center0).1,
    (detect_slow_keeps_history _ _ _ _ _ _ near_center0 slow_center0).2.2
      (by rw [default_mhf]; simp)⟩

/-- C7: an alert fires only when `now - last_alert_time` is at least the
cooldown, and on firing `last_alert_time` becomes `now`; consequently,
after a fired alert at `t1`, a second attempt at `t2` is suppressed when
`t2 - t1 < cooldown` (one event) and fires when `t2 - t1` is at least the
cooldown (two events). -/
theorem alert_cooldown_spec :
    (∀ (cd now : ℝ) (s : AlertState),
        (trigger_alert cd now s).2 = true →
          cd ≤ now - s.last_alert_time ∧
            (trigger_alert cd now s).1.last_alert_time = now) ∧
    (∀ (cd t1 t2 : ℝ) (s : AlertState), cd ≤ t1 - s.last_alert_time →
        (trigger_alert cd t1 s).2 = true ∧
        (t2 - t1 < cd → (trigger_alert cd t2 (trigger_alert cd t1 s).1).2 = false) ∧
        (cd ≤ t2 - t1 → (trigger_alert cd t2 (trigger_alert cd t1 s).1).2 = true)) := by
  constructor
  · intro cd now s hfired
    by_cases hlt : now - s.last_alert_time < cd
    · rw [trigger_alert_skip _ _ _ hlt] at hfired
      exact absurd hfired (by simp)
    · refine ⟨not_lt.mp hlt, ?_⟩
      rw [trigger_alert_fire _ _ _ hlt]
  · intro cd t1 t2 s h1
    have hnl : ¬ (t1 - s.last_alert_time < cd) := not_lt.mpr h1
    rw [trigger_alert_fire _ _ _ hnl]
    refine ⟨rfl, fun hlt => ?_, fun hge => ?_⟩
    · rw [trigger_alert_skip _ _ _ (by simpa using hlt)]
    · rw [trigger_alert_fire _ _ _ (by simpa using not_lt.mpr hge)]

/-- C7 witness: cooldown 5, first alert at time 10 from the initial state
fires; a second attempt at 12 is suppressed, one at 16 fires. -/
theorem alert_cooldown_spec_witness :
    (5 : ℝ) ≤ 10 - initial_alert_state.last_alert_time ∧
    (trigger_alert 5 10 initial_alert_state).2 = true ∧
    (trigger_alert 5 12 (trigger_alert 5 10 initial_alert_state).1).2 = false ∧
    (trigger_alert 5 16 (trigger_alert 5 10 initial_alert_state).1).2 = true := by
  have h1 : (5 : ℝ) ≤ 10 - initial_alert_state.last_alert_time := by
    norm_num [initial_alert_state]
  have h2 := alert_cooldown_spec.2 5 10 12 initial_alert_state h1
  have h3 := alert_cooldown_spec.2 5 10 16 initial_alert_state h1
  exact ⟨h1, h2.1, h2.2.1 (by norm_num), h3.2.2 (by norm_num)⟩

/-- C8: on every frame the consecutive counter becomes `old + 1` on a true
signal and `0` on a false one; on a true signal at or above the threshold
the frame outcome is exactly the alert attempt (`trigger_alert` on the
incremented state), below the threshold no attempt is made; and an alert
attempt, fired or suppressed, never changes the counter. -/
theorem counter_update_spec (cfg : Config) (now : ℝ) (s : AlertState) (b : Bool) :
    ((process_detection cfg now s b).1.consecutive_detections =
        if b then s.consecutive_detections + 1 else 0) ∧
    (b = false → process_detection cfg now s b = (⟨s.last_alert_time, 0⟩, false)) ∧
    (b = true → cfg.consecutive_frames_threshold ≤ s.consecutive_detections + 1 →
        process_detection cfg now s b =
          trigger_alert cfg.alert_cooldown_seconds now
            ⟨s.last_alert_time, s.consecutive_detections + 1⟩) ∧
    (b = true → s.consecutive_detections + 1 < cfg.consecutive_frames_threshold →
        process_detection cfg now s b =
          (⟨s.last_alert_time, s.consecutive_detections + 1⟩, false)) ∧
    (∀ (cd tnow : ℝ) (s2 : AlertState),
        (trigger_alert cd tnow s2).1.consecutive_detections = s2.consecutive_detections) := by
  refine ⟨?_, ?_, ?_, ?_, trigger_alert_keeps_counter⟩
  · cases b with
    | false => simp [process_detection]
    | true =>
      simp only [process_detection, if_true]
      split
      · rw [trigger_alert_keeps_counter]
      · rfl
  · rintro rfl
    simp [process_detection]
  · rintro rfl hthr
    simp only [process_detection, if_true]
    rw [if_pos hthr]
  · rintro rfl hlt
    simp only [process_detection, if_true]
    rw [if_neg (by omega)]

/-- C8 witness: with the default threshold 3, a true frame on counter 2
is exactly an alert attempt, a false frame resets the counter, and a true
frame on counter 0 makes no attempt. -/
theorem counter_update_spec_witness :
    ((process_detection get_default_config 100 ⟨0, 2⟩ true).1.consecutive_detections =
        if true then 2 + 1 else 0) ∧
    process_detection get_default_config 100 ⟨0, 2⟩ true =
      trigger_alert get_default_config.alert_cooldown_seconds 100 ⟨0, 2 + 1⟩ ∧
    process_detection get_default_config 100 ⟨0, 0⟩ false = (⟨0, 0⟩, false) ∧
    process_detection get_default_config 100 ⟨0, 0⟩ true = (⟨0, 0 + 1⟩, false) :=
  ⟨(counter_update_spec get_default_config 100 ⟨0, 2⟩ true).1,
    (counter_update_spec get_default_config 100 ⟨0, 2⟩ true).2.2.1 rfl
      (by norm_num [get_default_config]),
    (counter_update_spec get_default_config 100 ⟨0, 0⟩ false).2.1 rfl,
    (counter_update_spec get_default_config 100 ⟨0, 0⟩ true).2.2.2.1 rfl
      (by norm_num [get_default_config])⟩

/-- C10: a suppressed alert attempt is side-effect free: when the cooldown
has not elapsed, `trigger_alert` returns the state unchanged and emits no
alert event. -/
theorem suppressed_alert_noop (cd now : ℝ) (s : AlertState)
    (h : now - s.last_alert_time < cd) :
    trigger_alert cd now s = (s, false) :=
  trigger_alert_skip cd now s h

/-- C10 witness: an attempt at time 1 with cooldown 5 from the initial
state is suppressed and changes nothing. -/
theorem suppressed_alert_noop_witness :
    (1 : ℝ) - initial_alert_state.last_alert_time < 5 ∧
    trigger_alert 5 1 initial_alert_state = (initial_alert_state, false) := by
  have h : (1 : ℝ) - initial_alert_state.last_alert_time < 5 := by
    norm_num [initial_alert_state]
  exact ⟨h, suppressed_alert_noop 5 1 initial_alert_state h⟩

end LensSafe
